import Mathlib

/-!
Verification of `pkg/Cluster.go` of the silver-surfer repository.

The Go file is orchestration glue over the Kubernetes client library: it
resolves a connection configuration, discovers resources and lists objects.
We embed its pure decision logic shallowly: the cluster-side calls
(REST mapping, dynamic list, discovery of the server version, the several
configuration loaders) become oracles whose outcomes are explicit
`Except`/`Option` parameters, and Go `panic` becomes an `Except.error`
result.  Every definition mirrors the corresponding Go code line by line.
-/

namespace SilverSurfer

/-- `schema.GroupVersionKind`: an abstract API type identifier. -/
structure GroupVersionKind where
  Group : String
  Version : String
  Kind : String
deriving DecidableEq, Repr

/-- `schema.GroupVersionResource`: a concrete listable collection endpoint. -/
structure GroupVersionResource where
  Group : String
  Version : String
  Resource : String
deriving DecidableEq, Repr

/-- `unstructured.Unstructured`: a generically typed object.  We keep the
metadata fields `FetchK8sObjects` reads plus an opaque payload standing for
the rest of the object's content, so that "the object is appended
unmodified" is expressible. -/
structure Unstructured where
  Namespace : String
  Name : String
  Kind : String
  payload : List (String × String)
deriving DecidableEq, Repr

/-- `obj.GetNamespace()` of the Kubernetes object accessor. -/
def Unstructured.GetNamespace (o : Unstructured) : String := o.Namespace

/-- The filter configuration consumed by `FetchK8sObjects`.  The struct
itself lives outside `pkg/Cluster.go`; its four fields are taken from their
uses at `Cluster.go:122-152`. -/
structure Config where
  IgnoreKinds : List String
  SelectKinds : List String
  IgnoreNamespaces : List String
  SelectNamespaces : List String
deriving Repr

/-- Modelled from the spec: the repository's `Contains(s, list)` string
helper is not under `src/` (only its call sites in `Cluster.go` are).  The
spec describes each filter field as "a set of plain string names", so
membership is plain string equality over the list. -/
def Contains (s : String) (l : List String) : Bool := l.contains s

/-- Go `strings.TrimLeft`-style removal of the leading run of characters
drawn from `cutset`, on character lists. -/
def goTrimLeftChars (cutset : List Char) : List Char → List Char
  | [] => []
  | c :: cs => if cutset.contains c then goTrimLeftChars cutset cs else c :: cs

/-- Go `strings.Trim(s, cutset)`: remove all leading and trailing characters
contained in `cutset`. -/
def goTrim (s cutset : String) : String :=
  ⟨(goTrimLeftChars cutset.data (goTrimLeftChars cutset.data s.data).reverse).reverse⟩

/-- Substring test on character lists: does `sub` occur contiguously? -/
def charsContains (sub : List Char) : List Char → Bool
  | [] => sub.isEmpty
  | c :: cs => sub.isPrefixOf (c :: cs) || charsContains sub cs

/-- Go `strings.Contains(s, substr)`: case-sensitive substring test. -/
def strContains (s sub : String) : Bool := charsContains sub.data s.data

/-- ASCII lower-casing of one character. -/
def lowerChar (c : Char) : Char :=
  if 65 ≤ c.toNat ∧ c.toNat ≤ 90 then Char.ofNat (c.toNat + 32) else c

/-- ASCII lower-casing of a string. -/
def strToLower (s : String) : String := ⟨s.data.map lowerChar⟩

/-- Go `strings.EqualFold(a, b)`, modelled for ASCII: case-insensitive
string equality. -/
def equalFold (a b : String) : Bool := strToLower a == strToLower b

/-- `version.Info` as returned by the discovery client's `ServerVersion`. -/
structure VersionInfo where
  Major : String
  Minor : String
deriving DecidableEq, Repr

/-- `Cluster.ServerVersion` (`Cluster.go:110-116`): the discovery call's
outcome is the parameter; on success the result is
`fmt.Sprintf("%s.%s", info.Major, strings.Trim(info.Minor, "+"))`, on
failure the error is propagated. -/
def ServerVersion (disco : Except String VersionInfo) : Except String String :=
  match disco with
  | .error e => .error e
  | .ok info => .ok (info.Major ++ "." ++ goTrim info.Minor "+")

/-- The spec's wording for the version string (C7): strip only a trailing
run of `'+'` characters from the minor component.  To be compared with the
source's `strings.Trim(info.Minor, "+")`, which also strips leading
ones. -/
def trimTrailingPlus (s : String) : String :=
  ⟨(goTrimLeftChars ['+'] s.data.reverse).reverse⟩

/-- `rest.Config`: we keep an opaque host and the flag that
`WarningHandler = rest.NoWarnings{}` sets. -/
structure RestConfig where
  host : String
  warningsSuppressed : Bool
deriving DecidableEq, Repr

/-- The discovery client built by `discovery.NewDiscoveryClientForConfig`. -/
structure DiscoveryClient where
  config : RestConfig
deriving DecidableEq, Repr

/-- The dynamic client built by `dynamic.NewForConfig`. -/
structure DynamicClient where
  config : RestConfig
deriving DecidableEq, Repr

/-- The fields of `Cluster` that `NewClusterFromEnvOrConfig` fills in. -/
structure Cluster where
  restConfig : RestConfig
  disco : DiscoveryClient
  clientset : DynamicClient
deriving DecidableEq, Repr

/-- The three configuration-resolution strategies of
`NewClusterFromEnvOrConfig` (`Cluster.go:74-93`). -/
inductive Strategy where
  | localDev
  | injected
  | inCluster
deriving DecidableEq, Repr

/-- Outcomes of the external calls `NewClusterFromEnvOrConfig` makes: the
`USE_LOCAL_DEV_MODE` environment variable, `user.Current()`,
`clientcmd.BuildConfigFromFlags`, `rest.InClusterConfig()`, and the two
client constructors. -/
structure Env where
  useLocalDevMode : String
  userCurrent : Except String String
  buildConfigFromFlags : String → Except String RestConfig
  inClusterConfig : Except String RestConfig
  newDiscoveryClientForConfig : RestConfig → Except String DiscoveryClient
  dynamicNewForConfig : RestConfig → Except String DynamicClient

/-- `Cluster.go:95-107`: store the resolved config with warnings
suppressed, then build the discovery and dynamic clients; either
constructor failing panics. -/
def finishCluster (env : Env) (cfg : RestConfig) : Except String Cluster :=
  let cfg := { cfg with warningsSuppressed := true }
  match env.newDiscoveryClientForConfig cfg with
  | .error e => .error e
  | .ok disco =>
    match env.dynamicNewForConfig cfg with
    | .error e => .error e
    | .ok clientset => .ok { restConfig := cfg, disco := disco, clientset := clientset }

/-- `NewClusterFromEnvOrConfig` (`Cluster.go:69-108`).  A Go `panic` is an
`Except.error` result.  The first component records which
configuration-resolution strategies were attempted, in order. -/
def NewClusterFromEnvOrConfig (env : Env) (restConfig : Option RestConfig) :
    List Strategy × Except String Cluster :=
  if env.useLocalDevMode = "true" then
    ([Strategy.localDev],
      match env.userCurrent with
      | .error e => .error e
      | .ok homeDir =>
        match env.buildConfigFromFlags (homeDir ++ "/.kube/config") with
        | .error e => .error e
        | .ok cfg => finishCluster env cfg)
  else
    match restConfig with
    | some cfg => ([Strategy.injected], finishCluster env cfg)
    | none =>
      ([Strategy.inCluster],
        match env.inClusterConfig with
        | .error e => .error e
        | .ok cfg => finishCluster env cfg)

/-- The two cluster-side oracles `FetchK8sObjects` consults: the deferred
discovery REST mapper (`mapper.RESTMapping`) and the dynamic client's list
call (`c.clientset.Resource(r).List`). -/
structure ClusterAPI where
  RESTMapping : GroupVersionKind → Except String GroupVersionResource
  ListResource : GroupVersionResource → Except String (List Unstructured)

/-- First loop of `FetchK8sObjects` (`Cluster.go:121-133`): kind deny-list,
kind allow-list, REST mapping; mapping failures are skipped. -/
def fetchResources (c : ClusterAPI) (gvks : List GroupVersionKind)
    (conf : Config) : List GroupVersionResource :=
  gvks.foldl (fun resources gvk =>
    if Contains gvk.Kind conf.IgnoreKinds then resources
    else if decide (conf.SelectKinds.length > 0) && !Contains gvk.Kind conf.SelectKinds then
      resources
    else
      match c.RESTMapping gvk with
      | .error _ => resources
      | .ok gvr => resources ++ [gvr]) []

/-- The resource-name skip of `Cluster.go:135`: case-sensitive substring
tests for "lists" and "reviews", case-insensitive equality with
"bindings". -/
def resourceSkipped (resource : GroupVersionResource) : Bool :=
  strContains resource.Resource "lists" || strContains resource.Resource "reviews" ||
    equalFold resource.Resource "bindings"

/-- `Cluster.go:145-148`: the local `namespace` variable, defaulted to
`"default"` when the object's namespace is empty.  It is only ever used in
the two filter tests below. -/
def effNs (obj : Unstructured) : String :=
  if obj.GetNamespace.length = 0 then "default" else obj.GetNamespace

/-- Inner loop of `Cluster.go:144-156`: per-object namespace defaulting and
namespace deny/allow filtering, appending survivors to `objs`. -/
def filterItems (conf : Config) (items : List Unstructured)
    (objs : List Unstructured) : List Unstructured :=
  items.foldl (fun objs obj =>
    if Contains (effNs obj) conf.IgnoreNamespaces then objs
    else if decide (conf.SelectNamespaces.length > 0) &&
        !Contains (effNs obj) conf.SelectNamespaces then
      objs
    else objs ++ [obj]) objs

/-- `Cluster.FetchK8sObjects` (`Cluster.go:117-159`): build the resource
list, then list each resource, skipping synthetic endpoints and failed list
calls, and filter the returned objects by namespace. -/
def FetchK8sObjects (c : ClusterAPI) (gvks : List GroupVersionKind)
    (conf : Config) : List Unstructured :=
  let resources := fetchResources c gvks conf
  resources.foldl (fun objs resource =>
    if resourceSkipped resource then objs
    else
      match c.ListResource resource with
      | .error _ => objs
      | .ok objList => filterItems conf objList objs) []

/-! ### Structural lemmas

`FetchK8sObjects` is two accumulating loops; we rephrase it as the
concatenation, over the input kind references, of each reference's
individual contribution.  The auxiliary definitions below name the pieces
of the source's control flow. -/

/-- The resource(s) a single kind reference adds to `resources` in the
first loop: none when the kind filter or the REST mapping drops it. -/
def resStep (c : ClusterAPI) (conf : Config) (gvk : GroupVersionKind) :
    List GroupVersionResource :=
  if Contains gvk.Kind conf.IgnoreKinds then []
  else if decide (conf.SelectKinds.length > 0) && !Contains gvk.Kind conf.SelectKinds then []
  else
    match c.RESTMapping gvk with
    | .error _ => []
    | .ok gvr => [gvr]

/-- The per-object survival test of the inner loop, as a predicate: the
object passes the namespace deny-list and allow-list checks evaluated on
its effective namespace. -/
def nsAllowed (conf : Config) (obj : Unstructured) : Bool :=
  !Contains (effNs obj) conf.IgnoreNamespaces &&
    !(decide (conf.SelectNamespaces.length > 0) &&
      !Contains (effNs obj) conf.SelectNamespaces)

/-- The objects a single resolved resource adds in the second loop: none
when the resource name is skipped or the list call fails, the
namespace-filtered items otherwise. -/
def objStep (c : ClusterAPI) (conf : Config) (r : GroupVersionResource) :
    List Unstructured :=
  if resourceSkipped r then []
  else
    match c.ListResource r with
    | .error _ => []
    | .ok items => items.filter (fun o => nsAllowed conf o)

/-- Everything a single kind reference contributes to the final result. -/
def contribution (c : ClusterAPI) (conf : Config) (g : GroupVersionKind) :
    List Unstructured :=
  if Contains g.Kind conf.IgnoreKinds then []
  else if decide (conf.SelectKinds.length > 0) && !Contains g.Kind conf.SelectKinds then []
  else
    match c.RESTMapping g with
    | .error _ => []
    | .ok r => objStep c conf r

lemma foldl_skip_append {α β : Type} (g : α → List β) (step : List β → α → List β)
    (hstep : ∀ acc x, step acc x = acc ++ g x) :
    ∀ (l : List α) (acc : List β), l.foldl step acc = acc ++ l.flatMap g := by
  intro l
  induction l with
  | nil => intro acc; simp
  | cons x xs ih =>
    intro acc
    rw [List.foldl_cons, hstep, List.flatMap_cons, ih, List.append_assoc]

lemma flatMap_if_singleton {α : Type} (p : α → Bool) (l : List α) :
    (l.flatMap fun x => if p x then [x] else []) = l.filter p := by
  induction l with
  | nil => rfl
  | cons x xs ih =>
    by_cases h : p x <;> simp [List.flatMap_cons, h, ih, List.filter_cons]

lemma fetchResources_eq_flatMap (c : ClusterAPI) (conf : Config)
    (gvks : List GroupVersionKind) :
    fetchResources c gvks conf = gvks.flatMap (resStep c conf) := by
  have h := foldl_skip_append (resStep c conf)
    (fun resources gvk =>
      if Contains gvk.Kind conf.IgnoreKinds then resources
      else if decide (conf.SelectKinds.length > 0) && !Contains gvk.Kind conf.SelectKinds then
        resources
      else
        match c.RESTMapping gvk with
        | .error _ => resources
        | .ok gvr => resources ++ [gvr])
    (by
      intro acc gvk
      by_cases h1 : Contains gvk.Kind conf.IgnoreKinds
      · simp [resStep, h1]
      · by_cases h2 : decide (conf.SelectKinds.length > 0) &&
            !Contains gvk.Kind conf.SelectKinds
        · simp [resStep, h1, h2]
        · cases hm : c.RESTMapping gvk <;> simp [resStep, h1, h2, hm])
    gvks []
  simpa [fetchResources] using h

lemma filterItems_eq (conf : Config) (items objs : List Unstructured) :
    filterItems conf items objs = objs ++ items.filter (fun o => nsAllowed conf o) := by
  have h := foldl_skip_append (fun obj => if nsAllowed conf obj then [obj] else [])
    (fun objs obj =>
      if Contains (effNs obj) conf.IgnoreNamespaces then objs
      else if decide (conf.SelectNamespaces.length > 0) &&
          !Contains (effNs obj) conf.SelectNamespaces then
        objs
      else objs ++ [obj])
    (by
      intro acc obj
      by_cases h1 : Contains (effNs obj) conf.IgnoreNamespaces
      · simp [nsAllowed, h1]
      · by_cases h2 : decide (conf.SelectNamespaces.length > 0) &&
            !Contains (effNs obj) conf.SelectNamespaces
        · simp [nsAllowed, h1, h2]
        · simp [nsAllowed, h1, h2])
    items objs
  rw [filterItems, h, flatMap_if_singleton]

lemma fetch_eq_resources_flatMap (c : ClusterAPI) (gvks : List GroupVersionKind)
    (conf : Config) :
    FetchK8sObjects c gvks conf = (fetchResources c gvks conf).flatMap (objStep c conf) := by
  have h := foldl_skip_append (objStep c conf)
    (fun objs resource =>
      if resourceSkipped resource then objs
      else
        match c.ListResource resource with
        | .error _ => objs
        | .ok objList => filterItems conf objList objs)
    (by
      intro acc r
      by_cases h1 : resourceSkipped r
      · simp [objStep, h1]
      · cases hl : c.ListResource r with
        | error e => simp [objStep, h1, hl]
        | ok items => simp [objStep, h1, hl, filterItems_eq])
    (fetchResources c gvks conf) []
  simpa [FetchK8sObjects] using h

lemma contribution_eq_flatMap (c : ClusterAPI) (conf : Config) (g : GroupVersionKind) :
    contribution c conf g = (resStep c conf g).flatMap (objStep c conf) := by
  by_cases h1 : Contains g.Kind conf.IgnoreKinds
  · simp [contribution, resStep, h1]
  · by_cases h2 : decide (conf.SelectKinds.length > 0) && !Contains g.Kind conf.SelectKinds
    · simp [contribution, resStep, h1, h2]
    · cases hm : c.RESTMapping g <;> simp [contribution, resStep, h1, h2, hm]

/-- Master characterisation: the fetch is the concatenation of the
individual kind references' contributions, in input order. -/
lemma fetch_eq_flatMap (c : ClusterAPI) (gvks : List GroupVersionKind) (conf : Config) :
    FetchK8sObjects c gvks conf = gvks.flatMap (contribution c conf) := by
  rw [fetch_eq_resources_flatMap, fetchResources_eq_flatMap, List.flatMap_assoc]
  congr 1
  funext g
  rw [contribution_eq_flatMap]

lemma mem_fetch_iff (c : ClusterAPI) (gvks : List GroupVersionKind) (conf : Config)
    (o : Unstructured) :
    o ∈ FetchK8sObjects c gvks conf ↔ ∃ g ∈ gvks, o ∈ contribution c conf g := by
  rw [fetch_eq_flatMap, List.mem_flatMap]

lemma fetch_drop_of_contribution_nil (c : ClusterAPI) (conf : Config)
    (l1 l2 : List GroupVersionKind) (g : GroupVersionKind)
    (h : contribution c conf g = []) :
    FetchK8sObjects c (l1 ++ [g] ++ l2) conf = FetchK8sObjects c (l1 ++ l2) conf := by
  simp [fetch_eq_flatMap, List.flatMap_append, h]

/-- Membership in a single contribution, unfolded along the source's
control flow. -/
lemma mem_contribution_iff (c : ClusterAPI) (conf : Config) (g : GroupVersionKind)
    (o : Unstructured) :
    o ∈ contribution c conf g ↔
      Contains g.Kind conf.IgnoreKinds = false ∧
      (decide (conf.SelectKinds.length > 0) && !Contains g.Kind conf.SelectKinds) = false ∧
      ∃ r, c.RESTMapping g = .ok r ∧ resourceSkipped r = false ∧
        ∃ items, c.ListResource r = .ok items ∧ o ∈ items ∧ nsAllowed conf o = true := by
  by_cases h1 : Contains g.Kind conf.IgnoreKinds
  · simp [contribution, h1]
  · by_cases h2 : decide (conf.SelectKinds.length > 0) && !Contains g.Kind conf.SelectKinds
    · simp [contribution, h1, h2]
    · cases hm : c.RESTMapping g with
      | error e => simp [contribution, h1, h2, hm]
      | ok r =>
        by_cases h3 : resourceSkipped r
        · simp [contribution, objStep, h1, h2, hm, h3]
        · cases hl : c.ListResource r with
          | error e => simp [contribution, objStep, h1, h2, hm, h3, hl]
          | ok items =>
            constructor
            · intro ho
              simp only [contribution, objStep, if_neg h1, if_neg h2, hm, if_neg h3, hl] at ho
              rcases List.mem_filter.mp ho with ⟨hi, hp⟩
              exact ⟨by simpa using h1, by simpa using h2, r, rfl, by simpa using h3,
                items, hl, hi, hp⟩
            · rintro ⟨-, -, r2, hr2, -, items2, hl2, hi2, hns2⟩
              injection hr2 with hr2
              subst hr2
              rw [hl] at hl2
              injection hl2 with hl2
              subst hl2
              simp only [contribution, objStep, if_neg h1, if_neg h2, hm, if_neg h3, hl]
              exact List.mem_filter.mpr ⟨hi2, hns2⟩

lemma contribution_eq_nil_of_deny (c : ClusterAPI) (conf : Config)
    (g : GroupVersionKind) (h : Contains g.Kind conf.IgnoreKinds = true) :
    contribution c conf g = [] := by
  simp [contribution, h]

lemma objStep_eq_nil_of_list_error (c : ClusterAPI) (conf : Config)
    (r : GroupVersionResource) (e : String) (hl : c.ListResource r = .error e) :
    objStep c conf r = [] := by
  by_cases h3 : resourceSkipped r <;> simp [objStep, h3, hl]

lemma objStep_eq_nil_of_skipped (c : ClusterAPI) (conf : Config)
    (r : GroupVersionResource) (h3 : resourceSkipped r = true) :
    objStep c conf r = [] := by
  simp [objStep, h3]

lemma contribution_eq_nil_of_objStep (c : ClusterAPI) (conf : Config)
    (g : GroupVersionKind) (r : GroupVersionResource)
    (hm : c.RESTMapping g = .ok r) (h : objStep c conf r = []) :
    contribution c conf g = [] := by
  by_cases h1 : Contains g.Kind conf.IgnoreKinds
  · simp [contribution, h1]
  · by_cases h2 : decide (conf.SelectKinds.length > 0) && !Contains g.Kind conf.SelectKinds
    · simp [contribution, h1, h2]
    · simp [contribution, h1, h2, hm, h]

lemma contribution_eq_nil_of_mapping_error (c : ClusterAPI) (conf : Config)
    (g : GroupVersionKind) (e : String) (hm : c.RESTMapping g = .error e) :
    contribution c conf g = [] := by
  by_cases h1 : Contains g.Kind conf.IgnoreKinds
  · simp [contribution, h1]
  · by_cases h2 : decide (conf.SelectKinds.length > 0) && !Contains g.Kind conf.SelectKinds
    · simp [contribution, h1, h2]
    · simp [contribution, h1, h2, hm]

/-! ### Concrete fixtures

A small synthetic cluster used by the witnesses and counterexamples. -/

def podGvk : GroupVersionKind := ⟨"", "v1", "Pod"⟩

def secretGvk : GroupVersionKind := ⟨"", "v1", "Secret"⟩

def podsRes : GroupVersionResource := ⟨"", "v1", "pods"⟩

def secretsRes : GroupVersionResource := ⟨"", "v1", "secrets"⟩

def pod1 : Unstructured := ⟨"prod", "pod-1", "Pod", []⟩

def pod2 : Unstructured := ⟨"staging", "pod-2", "Pod", []⟩

def secret1 : Unstructured := ⟨"prod", "secret-1", "Secret", []⟩

def emptyConf : Config := ⟨[], [], [], []⟩

def sampleAPI : ClusterAPI where
  RESTMapping := fun g =>
    if g = podGvk then .ok podsRes
    else if g = secretGvk then .ok secretsRes
    else .error "no mapping"
  ListResource := fun r =>
    if r = podsRes then .ok [pod1, pod2]
    else if r = secretsRes then .ok [secret1]
    else .error "forbidden"

/-- Same cluster, but the secrets list call is forbidden. -/
def secretFailAPI : ClusterAPI where
  RESTMapping := fun g =>
    if g = podGvk then .ok podsRes
    else if g = secretGvk then .ok secretsRes
    else .error "no mapping"
  ListResource := fun r =>
    if r = podsRes then .ok [pod1, pod2]
    else .error "forbidden"

/-! ### Claim theorems -/

/-- C2: if the REST mapping of some kind fails, or the list call for its
resolved resource fails, `FetchK8sObjects` skips only that kind/resource:
it still returns (the embedding is a total function), and the result is
exactly the result for the same input with that kind removed, hence it
contains all surviving objects of every other resource. -/
theorem fetch_tolerates_per_resource_failure (c : ClusterAPI) (conf : Config)
    (l1 l2 : List GroupVersionKind) (g : GroupVersionKind)
    (h : (∃ e, c.RESTMapping g = .error e) ∨
      (∃ r e, c.RESTMapping g = .ok r ∧ c.ListResource r = .error e)) :
    FetchK8sObjects c (l1 ++ [g] ++ l2) conf = FetchK8sObjects c (l1 ++ l2) conf := by
  apply fetch_drop_of_contribution_nil
  rcases h with ⟨e, hm⟩ | ⟨r, e, hm, hl⟩
  · exact contribution_eq_nil_of_mapping_error c conf g e hm
  · exact contribution_eq_nil_of_objStep c conf g r hm
      (objStep_eq_nil_of_list_error c conf r e hl)

/-- Witness for C2: in the sample cluster whose secrets list call is
forbidden, fetching Pods and Secrets gives the same result as fetching
Pods alone. -/
theorem fetch_tolerates_per_resource_failure_witness :
    FetchK8sObjects secretFailAPI ([podGvk] ++ [secretGvk] ++ []) emptyConf =
      FetchK8sObjects secretFailAPI ([podGvk] ++ []) emptyConf :=
  fetch_tolerates_per_resource_failure secretFailAPI emptyConf [podGvk] [] secretGvk
    (Or.inr ⟨secretsRes, "forbidden", rfl, rfl⟩)

/-- C3: a kind reference whose kind name is in the kind deny-list
contributes nothing to the result, directly or via its resolved resource:
the fetch equals the fetch with that reference removed. -/
theorem kind_denylist_excludes (c : ClusterAPI) (conf : Config)
    (l1 l2 : List GroupVersionKind) (g : GroupVersionKind)
    (h : Contains g.Kind conf.IgnoreKinds = true) :
    FetchK8sObjects c (l1 ++ [g] ++ l2) conf = FetchK8sObjects c (l1 ++ l2) conf :=
  fetch_drop_of_contribution_nil c conf l1 l2 g (contribution_eq_nil_of_deny c conf g h)

/-- Witness for C3: with kind deny-list `["Secret"]` on the sample cluster
(two Pods, one Secret), Secrets drop out of the fetch. -/
theorem kind_denylist_excludes_witness :
    FetchK8sObjects sampleAPI ([podGvk] ++ [secretGvk] ++ []) ⟨["Secret"], [], [], []⟩ =
      FetchK8sObjects sampleAPI ([podGvk] ++ []) ⟨["Secret"], [], [], []⟩ :=
  kind_denylist_excludes sampleAPI ⟨["Secret"], [], [], []⟩ [podGvk] [] secretGvk (by decide)

/-- C4 counterexample: the skip at `Cluster.go:135` tests `lists` and
`reviews` with the case-sensitive `strings.Contains`.  A resolved resource
whose plural name `podLists` contains `lists` case-insensitively (but not
case-sensitively) is still listed, and its object appears in the result —
against the claim that all three comparisons are case-insensitive. -/
theorem resource_skip_case_insensitive_counterexample :
    strContains (strToLower "podLists") (strToLower "lists") = true ∧
    ClusterAPI.RESTMapping
        ⟨fun _ => .ok ⟨"", "v1", "podLists"⟩, fun _ => .ok [pod1]⟩ podGvk =
      .ok ⟨"", "v1", "podLists"⟩ ∧
    FetchK8sObjects ⟨fun _ => .ok ⟨"", "v1", "podLists"⟩, fun _ => .ok [pod1]⟩
        [podGvk] emptyConf = [pod1] := by
  refine ⟨by decide, rfl, ?_⟩
  decide

/-- C4 as amended: a resolved resource whose plural name contains `lists`
or `reviews` case-sensitively, or case-insensitively equals `bindings`,
contributes no objects: the fetch equals the fetch with the kind that
resolved to it removed, whatever the list call would have returned. -/
theorem resource_skip_amended (c : ClusterAPI) (conf : Config)
    (l1 l2 : List GroupVersionKind) (g : GroupVersionKind) (r : GroupVersionResource)
    (hm : c.RESTMapping g = .ok r)
    (h : strContains r.Resource "lists" = true ∨ strContains r.Resource "reviews" = true ∨
      equalFold r.Resource "bindings" = true) :
    FetchK8sObjects c (l1 ++ [g] ++ l2) conf = FetchK8sObjects c (l1 ++ l2) conf := by
  apply fetch_drop_of_contribution_nil
  apply contribution_eq_nil_of_objStep c conf g r hm
  apply objStep_eq_nil_of_skipped
  rcases h with h | h | h <;> simp [resourceSkipped, h]

/-- Witness for the amended C4: a kind resolving to the synthetic resource
`Bindings` (case-insensitively equal to `bindings`) contributes nothing,
even though its list call would succeed. -/
theorem resource_skip_amended_witness :
    FetchK8sObjects ⟨fun _ => .ok ⟨"", "v1", "Bindings"⟩, fun _ => .ok [pod1]⟩
        ([] ++ [podGvk] ++ []) emptyConf =
      FetchK8sObjects ⟨fun _ => .ok ⟨"", "v1", "Bindings"⟩, fun _ => .ok [pod1]⟩
        ([] ++ []) emptyConf :=
  resource_skip_amended _ emptyConf [] [] podGvk ⟨"", "v1", "Bindings"⟩ rfl
    (Or.inr (Or.inr (by decide)))

/-- C5: with a non-empty kind allow-list, every returned object originates
from a kind reference whose name is in the allow-list; with an empty kind
allow-list the allow test never drops a reference — a kind's contribution
is governed by the deny-list and the mapping alone. -/
theorem kind_allowlist_restricts (c : ClusterAPI) (conf : Config)
    (gvks : List GroupVersionKind) (o : Unstructured) :
    (conf.SelectKinds ≠ [] → o ∈ FetchK8sObjects c gvks conf →
      ∃ g ∈ gvks, Contains g.Kind conf.SelectKinds = true ∧ o ∈ contribution c conf g) ∧
    (conf.SelectKinds = [] → ∀ g : GroupVersionKind,
      contribution c conf g =
        if Contains g.Kind conf.IgnoreKinds then []
        else
          match c.RESTMapping g with
          | .error _ => []
          | .ok r => objStep c conf r) := by
  constructor
  · intro hne ho
    rcases (mem_fetch_iff c gvks conf o).mp ho with ⟨g, hg, hgc⟩
    refine ⟨g, hg, ?_, hgc⟩
    rcases (mem_contribution_iff c conf g o).mp hgc with ⟨-, h2, -⟩
    have hlen : decide (conf.SelectKinds.length > 0) = true :=
      decide_eq_true (List.length_pos.mpr hne)
    simp only [hlen, Bool.true_and, Bool.not_eq_false'] at h2
    exact h2
  · intro hsel g
    have hlen : decide (conf.SelectKinds.length > 0) = false := by
      simp [hsel]
    by_cases h1 : Contains g.Kind conf.IgnoreKinds
    · simp [contribution, h1]
    · simp [contribution, h1, hlen]

/-- Witness for C5: with kind allow-list `["Pod"]`, the surviving object
`pod1` originates from the Pod kind reference. -/
theorem kind_allowlist_restricts_witness :
    ∃ g ∈ [podGvk, secretGvk], Contains g.Kind ["Pod"] = true ∧
      pod1 ∈ contribution sampleAPI ⟨[], ["Pod"], [], []⟩ g :=
  (kind_allowlist_restricts sampleAPI ⟨[], ["Pod"], [], []⟩ [podGvk, secretGvk] pod1).1
    (by decide) (by decide)

/-- C6: for a listed object of a kind that survives the kind filter and the
resource-name skip, exclusion from the fetch result happens exactly when
the effective namespace (the object's namespace, or `"default"` when that
is empty) is in the namespace deny-list, or the namespace allow-list is
non-empty and does not contain it. -/
theorem ns_filter_characterisation (c : ClusterAPI) (conf : Config)
    (g : GroupVersionKind) (r : GroupVersionResource) (items : List Unstructured)
    (obj : Unstructured)
    (hk1 : Contains g.Kind conf.IgnoreKinds = false)
    (hk2 : (decide (conf.SelectKinds.length > 0) && !Contains g.Kind conf.SelectKinds) = false)
    (hm : c.RESTMapping g = .ok r)
    (hs : resourceSkipped r = false)
    (hl : c.ListResource r = .ok items)
    (hi : obj ∈ items) :
    obj ∉ FetchK8sObjects c [g] conf ↔
      Contains (effNs obj) conf.IgnoreNamespaces = true ∨
        (conf.SelectNamespaces ≠ [] ∧ Contains (effNs obj) conf.SelectNamespaces = false) := by
  have hmem : obj ∈ FetchK8sObjects c [g] conf ↔ nsAllowed conf obj = true := by
    rw [mem_fetch_iff]
    constructor
    · rintro ⟨g2, hg2, hc⟩
      rw [List.mem_singleton] at hg2
      rw [hg2] at hc
      rcases (mem_contribution_iff c conf g obj).mp hc with
        ⟨-, -, r2, -, -, items2, -, -, hns⟩
      exact hns
    · intro hns
      exact ⟨g, List.mem_singleton.mpr rfl,
        (mem_contribution_iff c conf g obj).mpr ⟨hk1, hk2, r, hm, hs, items, hl, hi, hns⟩⟩
  rw [hmem, nsAllowed]
  by_cases hn : conf.SelectNamespaces = []
  · simp [hn]
  · have hd : decide (conf.SelectNamespaces.length > 0) = true :=
      decide_eq_true (List.length_pos.mpr hn)
    by_cases hA : Contains (effNs obj) conf.IgnoreNamespaces <;>
      by_cases hB : Contains (effNs obj) conf.SelectNamespaces <;>
        simp [hd, hn, hA, hB]

/-- Witness for C6: with namespace allow-list `["prod"]`, the object in
`staging` is excluded from the fetch. -/
theorem ns_filter_characterisation_witness :
    pod2 ∉ FetchK8sObjects sampleAPI [podGvk] ⟨[], [], [], ["prod"]⟩ :=
  (ns_filter_characterisation sampleAPI ⟨[], [], [], ["prod"]⟩ podGvk podsRes
      [pod1, pod2] pod2 (by decide) (by decide) rfl (by decide) rfl (by decide)).mpr
    (Or.inr ⟨by decide, by decide⟩)

/-- C9: every object in the fetch result is, field for field, one of the
objects some successful list call returned: the code appends `obj`
itself, using the `"default"` substitution only inside the filter tests. -/
theorem fetch_returns_objects_unmodified (c : ClusterAPI)
    (gvks : List GroupVersionKind) (conf : Config) (o : Unstructured)
    (ho : o ∈ FetchK8sObjects c gvks conf) :
    ∃ g ∈ gvks, ∃ r, c.RESTMapping g = .ok r ∧
      ∃ items, c.ListResource r = .ok items ∧ o ∈ items := by
  rcases (mem_fetch_iff c gvks conf o).mp ho with ⟨g, hg, hc⟩
  rcases (mem_contribution_iff c conf g o).mp hc with ⟨-, -, r, hr, -, items, hl, hi, -⟩
  exact ⟨g, hg, r, hr, items, hl, hi⟩

/-- Witness for C9: a cluster-scoped object listed with an empty namespace
appears in the result as one of the raw listed items, namespace still
empty. -/
theorem fetch_returns_objects_unmodified_witness :
    ∃ g ∈ [GroupVersionKind.mk "rbac.authorization.k8s.io" "v1" "ClusterRole"],
      ∃ r, ClusterAPI.RESTMapping
          ⟨fun _ => .ok ⟨"rbac.authorization.k8s.io", "v1", "clusterroles"⟩,
            fun _ => .ok [⟨"", "admin", "ClusterRole", [("rules", "*")]⟩]⟩ g = .ok r ∧
        ∃ items, ClusterAPI.ListResource
            ⟨fun _ => .ok ⟨"rbac.authorization.k8s.io", "v1", "clusterroles"⟩,
              fun _ => .ok [⟨"", "admin", "ClusterRole", [("rules", "*")]⟩]⟩ r = .ok items ∧
          (⟨"", "admin", "ClusterRole", [("rules", "*")]⟩ : Unstructured) ∈ items :=
  fetch_returns_objects_unmodified
    ⟨fun _ => .ok ⟨"rbac.authorization.k8s.io", "v1", "clusterroles"⟩,
      fun _ => .ok [⟨"", "admin", "ClusterRole", [("rules", "*")]⟩]⟩
    [GroupVersionKind.mk "rbac.authorization.k8s.io" "v1" "ClusterRole"] emptyConf
    ⟨"", "admin", "ClusterRole", [("rules", "*")]⟩ (by decide)

/-- C10: the deny-list test runs before the allow-list test, for kinds and
for namespaces: a kind name in the kind deny-list is dropped even when the
kind allow-list also names it, and an object whose effective namespace is
in both the namespace deny-list and the namespace allow-list never appears
in the result. -/
theorem denylist_evaluated_before_allowlist (c : ClusterAPI) (conf : Config) :
    (∀ (l1 l2 : List GroupVersionKind) (g : GroupVersionKind),
      Contains g.Kind conf.IgnoreKinds = true → Contains g.Kind conf.SelectKinds = true →
      FetchK8sObjects c (l1 ++ [g] ++ l2) conf = FetchK8sObjects c (l1 ++ l2) conf) ∧
    (∀ (gvks : List GroupVersionKind) (obj : Unstructured),
      Contains (effNs obj) conf.IgnoreNamespaces = true →
      Contains (effNs obj) conf.SelectNamespaces = true →
      obj ∉ FetchK8sObjects c gvks conf) := by
  constructor
  · intro l1 l2 g hd _
    exact fetch_drop_of_contribution_nil c conf l1 l2 g
      (contribution_eq_nil_of_deny c conf g hd)
  · intro gvks obj hd _ hmem
    rcases (mem_fetch_iff c gvks conf obj).mp hmem with ⟨g, -, hc⟩
    rcases (mem_contribution_iff c conf g obj).mp hc with
      ⟨-, -, r, -, -, items, -, -, hns⟩
    rw [nsAllowed] at hns
    simp [hd] at hns

/-- Witness for C10: with `Secret` in both kind lists and `prod` in both
namespace lists, the Secret kind is dropped and the `prod` object is
excluded. -/
theorem denylist_evaluated_before_allowlist_witness :
    FetchK8sObjects sampleAPI ([podGvk] ++ [secretGvk] ++ [])
        ⟨["Secret"], ["Secret"], ["prod"], ["prod"]⟩ =
      FetchK8sObjects sampleAPI ([podGvk] ++ [])
        ⟨["Secret"], ["Secret"], ["prod"], ["prod"]⟩ ∧
    pod1 ∉ FetchK8sObjects sampleAPI [podGvk, secretGvk]
        ⟨["Secret"], ["Secret"], ["prod"], ["prod"]⟩ :=
  ⟨(denylist_evaluated_before_allowlist sampleAPI
      ⟨["Secret"], ["Secret"], ["prod"], ["prod"]⟩).1 [podGvk] [] secretGvk
      (by decide) (by decide),
    (denylist_evaluated_before_allowlist sampleAPI
      ⟨["Secret"], ["Secret"], ["prod"], ["prod"]⟩).2 [podGvk, secretGvk] pod1
      (by decide) (by decide)⟩

def crGvk : GroupVersionKind := ⟨"rbac.authorization.k8s.io", "v1", "ClusterRole"⟩

def crRes : GroupVersionResource := ⟨"rbac.authorization.k8s.io", "v1", "clusterroles"⟩

/-- A cluster-scoped object: its namespace field is empty. -/
def clusterScopedObj : Unstructured := ⟨"", "admin", "ClusterRole", []⟩

def crAPI : ClusterAPI := ⟨fun _ => .ok crRes, fun _ => .ok [clusterScopedObj]⟩

/-- C1 counterexample: an object listed with an empty namespace survives
filtering under the empty configuration, and the entry returned for it
still carries the empty namespace — not `"default"`.  The `"default"`
substitution at `Cluster.go:145-148` feeds only the filter tests; the
object is appended unmodified at `Cluster.go:155`. -/
theorem empty_namespace_reported_default_counterexample :
    FetchK8sObjects crAPI [crGvk] emptyConf = [clusterScopedObj] ∧
    clusterScopedObj.GetNamespace = "" ∧
    clusterScopedObj.GetNamespace ≠ "default" := by
  refine ⟨by decide, rfl, by decide⟩

/-- C1 as amended: when an object whose namespace field is empty survives
filtering, the namespace filters were satisfied by the substituted name
`"default"` — `"default"` is not in the namespace deny-list, and is in the
namespace allow-list whenever that is non-empty — while the returned entry
itself still has an empty namespace field. -/
theorem empty_namespace_filtered_as_default (c : ClusterAPI)
    (gvks : List GroupVersionKind) (conf : Config) (o : Unstructured)
    (ho : o ∈ FetchK8sObjects c gvks conf) (hns : o.GetNamespace = "") :
    Contains "default" conf.IgnoreNamespaces = false ∧
    (conf.SelectNamespaces ≠ [] → Contains "default" conf.SelectNamespaces = true) ∧
    o.GetNamespace = "" := by
  rcases (mem_fetch_iff c gvks conf o).mp ho with ⟨g, -, hc⟩
  rcases (mem_contribution_iff c conf g o).mp hc with
    ⟨-, -, r, -, -, items, -, -, hnsA⟩
  have heff : effNs o = "default" := by simp [effNs, hns]
  rw [nsAllowed, heff] at hnsA
  rw [Bool.and_eq_true, Bool.not_eq_true', Bool.not_eq_true'] at hnsA
  refine ⟨hnsA.1, ?_, hns⟩
  intro hn
  have hd : decide (conf.SelectNamespaces.length > 0) = true :=
    decide_eq_true (List.length_pos.mpr hn)
  have h2 := hnsA.2
  simp only [hd, Bool.true_and, Bool.not_eq_false'] at h2
  exact h2

/-- Witness for the amended C1: the surviving cluster-scoped object was
accepted because `"default"` passes the (empty) namespace filters, and its
returned namespace is still empty. -/
theorem empty_namespace_filtered_as_default_witness :
    Contains "default" emptyConf.IgnoreNamespaces = false ∧
    (emptyConf.SelectNamespaces ≠ [] → Contains "default" emptyConf.SelectNamespaces = true) ∧
    clusterScopedObj.GetNamespace = "" :=
  empty_namespace_filtered_as_default crAPI [crGvk] emptyConf clusterScopedObj
    (by decide) rfl

lemma goTrimLeftChars_id (cut : List Char) :
    ∀ l : List Char, (∀ c, l.head? = some c → cut.contains c = false) →
      goTrimLeftChars cut l = l
  | [], _ => rfl
  | c :: cs, h => by
    show (if cut.contains c then goTrimLeftChars cut cs else c :: cs) = c :: cs
    rw [h c rfl]
    simp

/-- C7 counterexample: `strings.Trim(info.Minor, "+")` also strips a
leading `'+'`.  On `Major = "1"`, `Minor = "+28"` the code yields
`"1.28"`, while the claimed trailing-only strip would yield `"1.+28"`. -/
theorem server_version_trailing_only_counterexample :
    ServerVersion (.ok ⟨"1", "+28"⟩) = .ok "1.28" ∧
    ("1" ++ "." ++ trimTrailingPlus "+28" : String) = "1.+28" ∧
    ("1.28" : String) ≠ "1.+28" := by
  refine ⟨congrArg Except.ok (by decide), by decide, by decide⟩

/-- C7 as amended: `ServerVersion` propagates a discovery failure, and on
success returns `Major ++ "." ++ Minor` with all leading and trailing `'+'`
characters stripped from `Minor`; when `Minor` does not begin with `'+'` —
as for real Kubernetes minors such as `"28+"` — this coincides with
stripping only the trailing `'+'` suffix. -/
theorem server_version_amended (info : VersionInfo) (e : String) :
    ServerVersion (.error e) = .error e ∧
    ServerVersion (.ok info) = .ok (info.Major ++ "." ++ goTrim info.Minor "+") ∧
    (info.Minor.data.head? ≠ some '+' →
      ServerVersion (.ok info) = .ok (info.Major ++ "." ++ trimTrailingPlus info.Minor)) := by
  refine ⟨rfl, rfl, ?_⟩
  intro h
  have hid : goTrimLeftChars "+".data info.Minor.data = info.Minor.data := by
    apply goTrimLeftChars_id
    intro c hc
    have hcne : c ≠ '+' := by
      intro hcc
      rw [hcc] at hc
      exact h hc
    simp [List.contains, hcne]
  show Except.ok _ = Except.ok _
  rw [goTrim, hid, trimTrailingPlus]

/-- Witness for the amended C7: `Major = "1"`, `Minor = "28+"` yields
`"1.28"`, the trailing `'+'` stripped. -/
theorem server_version_amended_witness :
    ServerVersion (.ok ⟨"1", "28+"⟩) = .ok ("1" ++ "." ++ trimTrailingPlus "28+") ∧
    ("1" ++ "." ++ trimTrailingPlus "28+" : String) = "1.28" :=
  ⟨(server_version_amended ⟨"1", "28+"⟩ "err").2.2 (by decide), by decide⟩

/-- C8: `NewClusterFromEnvOrConfig` attempts exactly one
configuration-resolution strategy per call, chosen in the order local-dev
environment flag, then injected non-nil configuration, then in-cluster
configuration; a failure of the selected strategy yields a panic (an
`Except.error` in the embedding), never a degraded handle. -/
theorem new_cluster_single_strategy (env : Env) (rc : Option RestConfig) :
    (NewClusterFromEnvOrConfig env rc).1.length = 1 ∧
    (env.useLocalDevMode = "true" →
      (NewClusterFromEnvOrConfig env rc).1 = [Strategy.localDev]) ∧
    (env.useLocalDevMode ≠ "true" → ∀ cfg, rc = some cfg →
      (NewClusterFromEnvOrConfig env rc).1 = [Strategy.injected]) ∧
    (env.useLocalDevMode ≠ "true" → rc = none →
      (NewClusterFromEnvOrConfig env rc).1 = [Strategy.inCluster]) ∧
    (env.useLocalDevMode = "true" → ∀ e, env.userCurrent = .error e →
      (NewClusterFromEnvOrConfig env rc).2 = .error e) ∧
    (env.useLocalDevMode = "true" → ∀ home e, env.userCurrent = .ok home →
      env.buildConfigFromFlags (home ++ "/.kube/config") = .error e →
      (NewClusterFromEnvOrConfig env rc).2 = .error e) ∧
    (env.useLocalDevMode ≠ "true" → rc = none → ∀ e, env.inClusterConfig = .error e →
      (NewClusterFromEnvOrConfig env rc).2 = .error e) := by
  by_cases hdev : env.useLocalDevMode = "true"
  · refine ⟨?_, ?_, ?_, ?_, ?_, ?_, ?_⟩
    · simp [NewClusterFromEnvOrConfig, hdev]
    · intro _
      simp [NewClusterFromEnvOrConfig, hdev]
    · intro h
      exact absurd hdev h
    · intro h
      exact absurd hdev h
    · intro _ e he
      simp [NewClusterFromEnvOrConfig, hdev, he]
    · intro _ home e hh hb
      simp [NewClusterFromEnvOrConfig, hdev, hh, hb]
    · intro h
      exact absurd hdev h
  · cases rc with
    | some cfg =>
      refine ⟨?_, ?_, ?_, ?_, ?_, ?_, ?_⟩
      · simp [NewClusterFromEnvOrConfig, hdev]
      · intro h
        exact absurd h hdev
      · intro _ cfg2 _
        simp [NewClusterFromEnvOrConfig, hdev]
      · intro _ h2
        simp at h2
      · intro h
        exact absurd h hdev
      · intro h
        exact absurd h hdev
      · intro _ h2
        simp at h2
    | none =>
      refine ⟨?_, ?_, ?_, ?_, ?_, ?_, ?_⟩
      · simp [NewClusterFromEnvOrConfig, hdev]
      · intro h
        exact absurd h hdev
      · intro _ cfg2 h2
        simp at h2
      · intro _ _
        simp [NewClusterFromEnvOrConfig, hdev]
      · intro h
        exact absurd h hdev
      · intro h
        exact absurd h hdev
      · intro _ _ e he
        simp [NewClusterFromEnvOrConfig, hdev, he]

def cfg0 : RestConfig := ⟨"https://10.96.0.1:443", false⟩

/-- An ambient environment outside local-dev mode whose in-cluster
configuration load fails. -/
def inClusterFailEnv : Env where
  useLocalDevMode := "false"
  userCurrent := .ok "/home/dev"
  buildConfigFromFlags := fun _ => .ok cfg0
  inClusterConfig := .error "unable to load in-cluster configuration"
  newDiscoveryClientForConfig := fun c => .ok ⟨c⟩
  dynamicNewForConfig := fun c => .ok ⟨c⟩

/-- Witness for C8: with no local-dev flag and no injected configuration,
only the in-cluster strategy is attempted, and its failure is fatal. -/
theorem new_cluster_single_strategy_witness :
    (NewClusterFromEnvOrConfig inClusterFailEnv none).1 = [Strategy.inCluster] ∧
    (NewClusterFromEnvOrConfig inClusterFailEnv none).2 =
      .error "unable to load in-cluster configuration" := by
  have h := new_cluster_single_strategy inClusterFailEnv none
  exact ⟨h.2.2.2.1 (by decide) rfl, h.2.2.2.2.2.2 (by decide) rfl
    "unable to load in-cluster configuration" rfl⟩

end SilverSurfer
